import Mathlib

/-!
Verification of the voice-conversation pipeline of the
peakflo-voice-agent-prototype repository.

The repository contains two generations of the pipeline:

* v1: src/src/lib/errors.ts, src/src/modules/{stt,session,llm}.ts together
  with the module files src/unnamed/part_000 (tts.ts / conversation.ts /
  audio.ts) and src/unnamed/part_001 (voice.ts);
* v2: src/v2/src/lib/{errors,audio,conversation,...}.ts and the v2 voice
  route (second document of src/v2/src/app/api/v1/auth/login/route.ts).

Each TypeScript function is embedded shallowly: asynchronous provider and
database calls are replaced by explicit outcome parameters
(an `Except` value standing for resolve/reject), the message store and the
temp-file area become explicit state that is threaded through, and
JavaScript numbers that only ever hold sizes, statuses, durations and
millisecond delays are modelled as `Nat`.
-/

namespace VoiceAgent

/-! ## Errors as seen by the two retry wrappers

v1 (src/src/lib/errors.ts) classifies by the `status` field of the thrown
error; v2 (src/v2/src/lib/errors.ts) classifies by `error.response.status`.
An error is modelled by the fields each wrapper inspects plus its message. -/

structure ErrV1 where
  status : Option Nat
  msg : String
deriving Repr, DecidableEq

structure ErrV2 where
  responseStatus : Option Nat
  msg : String
deriving Repr, DecidableEq

/-- v1 `errors.ts` line 17-20: `if (status && status >= 400 && status < 500) throw error`.
JavaScript truthiness of the number `status` is the `s ≠ 0` conjunct. -/
def isClientErrorV1 (e : ErrV1) : Bool :=
  match e.status with
  | some s => (s != 0) && decide (400 ≤ s) && decide (s < 500)
  | none => false

/-- v2 `errors.ts` line 13-14: `if (status != null && status < 500) throw error`. -/
def isTerminalV2 (e : ErrV2) : Bool :=
  match e.responseStatus with
  | some s => decide (s < 500)
  | none => false

/-- The spec classifies a failure as retryable when it is a network error,
a timeout (no status attached) or a server-class status of at least 500. -/
def retryableSpecV1 (e : ErrV1) : Prop :=
  e.status = none ∨ ∃ s, e.status = some s ∧ 500 ≤ s

def retryableSpecV2 (e : ErrV2) : Prop :=
  e.responseStatus = none ∨ ∃ s, e.responseStatus = some s ∧ 500 ≤ s

/-! ## retryWithBackoff

The source loop `for (attempt = 0; attempt <= maxRetries; attempt++)` is
embedded as structural recursion on the number of attempts that remain
after the current one (`remaining = maxRetries - attempt`), so
`attempt < maxRetries` in the source is `remaining` being a successor here.
Every invocation of the wrapped operation is a lookup `op attempt`; the
embedding returns the delivered result together with the number of times
the operation was invoked and the list of sleeps (in milliseconds) that
were performed, in order. -/

def retryFromV1 {T : Type} (op : Nat → Except ErrV1 T) (attempt : Nat) :
    Nat → Except ErrV1 T × Nat × List Nat
  | 0 =>
    -- last attempt: whatever happens, the loop ends and (re-)throws
    match op attempt with
    | .ok v => (.ok v, 1, [])
    | .error e => (.error e, 1, [])
  | remaining + 1 =>
    match op attempt with
    | .ok v => (.ok v, 1, [])
    | .error e =>
      if isClientErrorV1 e then (.error e, 1, [])
      else
        -- v1 line 22-29: fixed 500 ms delay, then the next attempt
        let rest := retryFromV1 op (attempt + 1) remaining
        (rest.1, rest.2.1 + 1, 500 :: rest.2.2)

def retryFromV2 {T : Type} (op : Nat → Except ErrV2 T) (attempt : Nat) :
    Nat → Except ErrV2 T × Nat × List Nat
  | 0 =>
    match op attempt with
    | .ok v => (.ok v, 1, [])
    | .error e => (.error e, 1, [])
  | remaining + 1 =>
    match op attempt with
    | .ok v => (.ok v, 1, [])
    | .error e =>
      if isTerminalV2 e then (.error e, 1, [])
      else
        -- v2 line 15-17: sleep 2^attempt * 1000 ms, then the next attempt
        let rest := retryFromV2 op (attempt + 1) remaining
        (rest.1, rest.2.1 + 1, (2 ^ attempt * 1000) :: rest.2.2)

def retryWithBackoffV1 {T : Type} (op : Nat → Except ErrV1 T) (maxRetries : Nat) :
    Except ErrV1 T × Nat × List Nat :=
  retryFromV1 op 0 maxRetries

def retryWithBackoffV2 {T : Type} (op : Nat → Except ErrV2 T) (maxRetries : Nat) :
    Except ErrV2 T × Nat × List Nat :=
  retryFromV2 op 0 maxRetries

/-- Default of the `maxRetries` parameter in v1: `maxRetries: number = 1`. -/
def defaultMaxRetriesV1 : Nat := 1

/-- Default of the `maxRetries` parameter in v2: `maxRetries = 2`. -/
def defaultMaxRetriesV2 : Nat := 2

/-! Helper lemmas shared by the retry claims. -/

lemma retryFromV1_allRetryable {T : Type} (op : Nat → Except ErrV1 T) :
    ∀ (k attempt : Nat),
      (∀ i, ∃ e, op i = .error e ∧ isClientErrorV1 e = false) →
      ∃ e, op (attempt + k) = .error e ∧
        retryFromV1 op attempt k = (.error e, k + 1, List.replicate k 500) := by
  intro k
  induction k with
  | zero =>
    intro attempt h
    obtain ⟨e, he, _⟩ := h attempt
    exact ⟨e, by simpa using he, by simp [retryFromV1, he]⟩
  | succ k ih =>
    intro attempt h
    obtain ⟨e0, he0, hc0⟩ := h attempt
    obtain ⟨e, he, hrec⟩ := ih (attempt + 1) h
    refine ⟨e, ?_, ?_⟩
    · simpa [Nat.add_assoc, Nat.add_comm 1 k] using he
    · simp [retryFromV1, he0, hc0, hrec, List.replicate_succ]

lemma retryFromV2_allRetryable {T : Type} (op : Nat → Except ErrV2 T) :
    ∀ (k attempt : Nat),
      (∀ i, ∃ e, op i = .error e ∧ isTerminalV2 e = false) →
      ∃ e, op (attempt + k) = .error e ∧
        retryFromV2 op attempt k =
          (.error e, k + 1, (List.range k).map (fun j => 2 ^ (attempt + j) * 1000)) := by
  intro k
  induction k with
  | zero =>
    intro attempt h
    obtain ⟨e, he, _⟩ := h attempt
    exact ⟨e, by simpa using he, by simp [retryFromV2, he]⟩
  | succ k ih =>
    intro attempt h
    obtain ⟨e0, he0, hc0⟩ := h attempt
    obtain ⟨e, he, hrec⟩ := ih (attempt + 1) h
    refine ⟨e, ?_, ?_⟩
    · simpa [Nat.add_assoc, Nat.add_comm 1 k] using he
    · have hmap : (List.range k).map (fun j => 2 ^ (attempt + 1 + j) * 1000)
          = (List.range k).map (fun j => 2 ^ (attempt + (j + 1)) * 1000) := by
        refine List.map_congr_left ?_
        intro j _
        have : attempt + 1 + j = attempt + (j + 1) := by omega
        rw [this]
      simp [retryFromV2, he0, hc0, hrec, List.range_succ_eq_map, List.map_map,
        Function.comp, hmap]

lemma retryableSpecV1_not_client {e : ErrV1} (h : retryableSpecV1 e) :
    isClientErrorV1 e = false := by
  rcases h with h | ⟨s, hs, h5⟩
  · simp [isClientErrorV1, h]
  · simp [isClientErrorV1, hs]
    omega

lemma retryableSpecV2_not_terminal {e : ErrV2} (h : retryableSpecV2 e) :
    isTerminalV2 e = false := by
  rcases h with h | ⟨s, hs, h5⟩
  · simp [isTerminalV2, h]
  · simp [isTerminalV2, hs]
    omega

/-- C3: given an operation that always throws a retryable error, both
versions of retryWithBackoff invoke the operation exactly maxRetries + 1
times and then deliver the error thrown by the final invocation. -/
theorem C3_retry_cap {T : Type} (maxRetries : Nat)
    (op1 : Nat → Except ErrV1 T) (op2 : Nat → Except ErrV2 T)
    (h1 : ∀ i, ∃ e, op1 i = .error e ∧ retryableSpecV1 e)
    (h2 : ∀ i, ∃ e, op2 i = .error e ∧ retryableSpecV2 e) :
    ((retryWithBackoffV1 op1 maxRetries).2.1 = maxRetries + 1 ∧
      ∃ e, op1 maxRetries = .error e ∧
        (retryWithBackoffV1 op1 maxRetries).1 = .error e) ∧
    ((retryWithBackoffV2 op2 maxRetries).2.1 = maxRetries + 1 ∧
      ∃ e, op2 maxRetries = .error e ∧
        (retryWithBackoffV2 op2 maxRetries).1 = .error e) := by
  have h1b : ∀ i, ∃ e, op1 i = .error e ∧ isClientErrorV1 e = false := by
    intro i
    obtain ⟨e, he, hr⟩ := h1 i
    exact ⟨e, he, retryableSpecV1_not_client hr⟩
  have h2b : ∀ i, ∃ e, op2 i = .error e ∧ isTerminalV2 e = false := by
    intro i
    obtain ⟨e, he, hr⟩ := h2 i
    exact ⟨e, he, retryableSpecV2_not_terminal hr⟩
  obtain ⟨e1, he1, hr1⟩ := retryFromV1_allRetryable op1 maxRetries 0 h1b
  obtain ⟨e2, he2, hr2⟩ := retryFromV2_allRetryable op2 maxRetries 0 h2b
  constructor
  · refine ⟨by simp [retryWithBackoffV1, hr1], e1, by simpa using he1,
      by simp [retryWithBackoffV1, hr1]⟩
  · refine ⟨by simp [retryWithBackoffV2, hr2], e2, by simpa using he2,
      by simp [retryWithBackoffV2, hr2]⟩

/-- Witness for C3 at a concrete always-503 operation with maxRetries = 2. -/
theorem C3_retry_cap_witness :
    (retryWithBackoffV1 (T := Nat) (fun _ => .error ⟨some 503, "boom"⟩) 2).2.1 = 3 ∧
    (retryWithBackoffV2 (T := Nat) (fun _ => .error ⟨some 503, "boom"⟩) 2).2.1 = 3 := by
  have h := C3_retry_cap (T := Nat) 2
    (fun _ => .error ⟨some 503, "boom"⟩) (fun _ => .error ⟨some 503, "boom"⟩)
    (fun _ => ⟨⟨some 503, "boom"⟩, rfl, Or.inr ⟨503, rfl, by omega⟩⟩)
    (fun _ => ⟨⟨some 503, "boom"⟩, rfl, Or.inr ⟨503, rfl, by omega⟩⟩)
  exact ⟨h.1.1, h.2.1⟩

/-- C4: an operation whose first invocation throws an error carrying a
client-class (4xx) status is invoked exactly once by both versions of
retryWithBackoff, the error is re-raised unchanged, and no sleep happens. -/
theorem C4_no_retry_on_client_error {T : Type} (maxRetries s : Nat)
    (op1 : Nat → Except ErrV1 T) (op2 : Nat → Except ErrV2 T)
    (e1 : ErrV1) (e2 : ErrV2)
    (hs : 400 ≤ s ∧ s < 500)
    (h1 : op1 0 = .error e1) (hst1 : e1.status = some s)
    (h2 : op2 0 = .error e2) (hst2 : e2.responseStatus = some s) :
    retryWithBackoffV1 op1 maxRetries = (.error e1, 1, []) ∧
    retryWithBackoffV2 op2 maxRetries = (.error e2, 1, []) := by
  have hc1 : isClientErrorV1 e1 = true := by
    simp [isClientErrorV1, hst1]
    omega
  have hc2 : isTerminalV2 e2 = true := by
    simp [isTerminalV2, hst2]
    omega
  constructor
  · cases maxRetries with
    | zero => simp [retryWithBackoffV1, retryFromV1, h1]
    | succ m => simp [retryWithBackoffV1, retryFromV1, h1, hc1]
  · cases maxRetries with
    | zero => simp [retryWithBackoffV2, retryFromV2, h2]
    | succ m => simp [retryWithBackoffV2, retryFromV2, h2, hc2]

/-- Witness for C4 at a concrete 404-throwing operation with maxRetries = 2. -/
theorem C4_no_retry_on_client_error_witness :
    retryWithBackoffV1 (T := Nat) (fun _ => .error ⟨some 404, "nf"⟩) 2 =
      (.error ⟨some 404, "nf"⟩, 1, []) ∧
    retryWithBackoffV2 (T := Nat) (fun _ => .error ⟨some 404, "nf"⟩) 2 =
      (.error ⟨some 404, "nf"⟩, 1, []) :=
  C4_no_retry_on_client_error 2 404
    (fun _ => .error ⟨some 404, "nf"⟩) (fun _ => .error ⟨some 404, "nf"⟩)
    ⟨some 404, "nf"⟩ ⟨some 404, "nf"⟩ (by omega) rfl rfl rfl rfl

/-- C5 counterexample: the v1 retryWithBackoff (src/src/lib/errors.ts) has
default maxRetries 1, so an always-503 operation run with the default is
invoked only 2 times (not the 3 the claim requires) and the single sleep
before the retry is the fixed 500 ms, not the 2^0 * 1000 ms the claimed
exponential schedule requires. -/
theorem C5_default_and_backoff_cx :
    defaultMaxRetriesV1 = 1 ∧ defaultMaxRetriesV1 ≠ 2 ∧
    (retryWithBackoffV1 (T := Nat) (fun _ => .error ⟨some 503, "boom"⟩)
        defaultMaxRetriesV1).2.1 = 2 ∧
    (retryWithBackoffV1 (T := Nat) (fun _ => .error ⟨some 503, "boom"⟩)
        defaultMaxRetriesV1).2.2 = [500] ∧
    ([500] : List Nat) ≠ [2 ^ 0 * 1000] := by
  refine ⟨rfl, by decide, ?_, ?_, by decide⟩ <;>
    simp [retryWithBackoffV1, defaultMaxRetriesV1, retryFromV1, isClientErrorV1]

/-- C5 (amended): the v2 retryWithBackoff has default maxRetries 2 (up to 3
attempts) and, for an operation that always throws a retryable error, sleeps
2^attempt seconds (2^attempt * 1000 ms) before each retry; the v1 version
instead defaults to maxRetries 1 (2 attempts) with a fixed 500 ms delay. -/
theorem C5_default_and_backoff {T : Type}
    (op1 : Nat → Except ErrV1 T) (op2 : Nat → Except ErrV2 T)
    (h1 : ∀ i, ∃ e, op1 i = .error e ∧ retryableSpecV1 e)
    (h2 : ∀ i, ∃ e, op2 i = .error e ∧ retryableSpecV2 e) :
    defaultMaxRetriesV2 = 2 ∧
    (retryWithBackoffV2 op2 defaultMaxRetriesV2).2.1 = 3 ∧
    (retryWithBackoffV2 op2 defaultMaxRetriesV2).2.2 =
      [2 ^ 0 * 1000, 2 ^ 1 * 1000] ∧
    (∀ maxRetries, (retryWithBackoffV2 op2 maxRetries).2.2 =
      (List.range maxRetries).map (fun a => 2 ^ a * 1000)) ∧
    defaultMaxRetriesV1 = 1 ∧
    (∀ maxRetries, (retryWithBackoffV1 op1 maxRetries).2.2 =
      List.replicate maxRetries 500) := by
  have h1b : ∀ i, ∃ e, op1 i = .error e ∧ isClientErrorV1 e = false := by
    intro i
    obtain ⟨e, he, hr⟩ := h1 i
    exact ⟨e, he, retryableSpecV1_not_client hr⟩
  have h2b : ∀ i, ∃ e, op2 i = .error e ∧ isTerminalV2 e = false := by
    intro i
    obtain ⟨e, he, hr⟩ := h2 i
    exact ⟨e, he, retryableSpecV2_not_terminal hr⟩
  have hv2 : ∀ maxRetries, (retryWithBackoffV2 op2 maxRetries).2.2 =
      (List.range maxRetries).map (fun a => 2 ^ a * 1000) := by
    intro m
    obtain ⟨e, _, hr⟩ := retryFromV2_allRetryable op2 m 0 h2b
    simp [retryWithBackoffV2, hr]
  have hv1 : ∀ maxRetries, (retryWithBackoffV1 op1 maxRetries).2.2 =
      List.replicate maxRetries 500 := by
    intro m
    obtain ⟨e, _, hr⟩ := retryFromV1_allRetryable op1 m 0 h1b
    simp [retryWithBackoffV1, hr]
  refine ⟨rfl, ?_, ?_, hv2, rfl, hv1⟩
  · obtain ⟨e, _, hr⟩ := retryFromV2_allRetryable op2 2 0 h2b
    simp [retryWithBackoffV2, defaultMaxRetriesV2, hr]
  · rw [hv2]
    decide

/-- Witness for C5 at concrete always-failing operations. -/
theorem C5_default_and_backoff_witness :
    (retryWithBackoffV2 (T := Nat) (fun _ => .error ⟨some 503, "boom"⟩)
        defaultMaxRetriesV2).2.2 = [1000, 2000] := by
  have h := C5_default_and_backoff (T := Nat)
    (fun _ => .error ⟨some 503, "boom"⟩) (fun _ => .error ⟨some 503, "boom"⟩)
    (fun _ => ⟨⟨some 503, "boom"⟩, rfl, Or.inr ⟨503, rfl, by omega⟩⟩)
    (fun _ => ⟨⟨some 503, "boom"⟩, rfl, Or.inr ⟨503, rfl, by omega⟩⟩)
  simpa using h.2.2.1

/-! ## Speech Synthesizer (v1 tts.ts, first document of src/unnamed/part_000)

The source inspects its text argument only through `text` (truthiness),
`text.trim().length` and `text.length`, so the input is modelled by those
two observed lengths. The provider call `openai.audio.speech.create` is
modelled by its outcome, an `Except` standing for resolve/reject. The
second component of the result records whether the provider was invoked. -/

structure TTSText where
  len : Nat
  trimLen : Nat
deriving Repr, DecidableEq

structure TTSEnv where
  providerResult : Except ErrV1 (List Nat)

def synthesizeSpeechV1 (text : TTSText) (env : TTSEnv) :
    Except ErrV1 (List Nat) × Bool :=
  -- `if (!text || text.trim().length === 0) throw` then the catch block
  -- wraps every thrown error in a fresh `Error` (hence: no status field)
  if text.len == 0 || text.trimLen == 0 then
    (.error ⟨none, "TTS failed: Text is required for TTS"⟩, false)
  else if text.len > 4096 then
    (.error ⟨none, "TTS failed: Text exceeds 4096 character limit"⟩, false)
  else
    match env.providerResult with
    | .ok buf => (.ok buf, true)
    | .error e => (.error ⟨none, "TTS failed: " ++ e.msg⟩, true)

/-- C8 counterexample: for a 4097-character text, synthesizeSpeech fails
without invoking the provider, but the error it throws carries no status,
so the surrounding retryWithBackoff (invoked with maxRetries = 2 in
voice.ts) classifies it as retryable and invokes the operation 3 times,
not the single time the claim requires. -/
theorem C8_tts_ceiling_cx :
    (synthesizeSpeechV1 ⟨4097, 4097⟩ ⟨.ok [1]⟩).2 = false ∧
    (retryWithBackoffV1
      (fun _ => (synthesizeSpeechV1 ⟨4097, 4097⟩ ⟨.ok [1]⟩).1) 2).2.1 = 3 ∧
    (3 : Nat) ≠ 1 := by
  refine ⟨by decide, ?_, by decide⟩
  decide

/-- C8 (amended): for text exceeding 4096 characters, synthesizeSpeech fails
upfront without invoking the synthesis provider; but because the thrown
error carries no status, the retry wrapper treats it as retryable and
re-invokes the operation maxRetries further times (each invocation again
failing without touching the provider) before re-raising the failure. -/
theorem C8_tts_ceiling (text : TTSText) (env : TTSEnv) (maxRetries : Nat)
    (hlen : 4096 < text.len) (htrim : text.trimLen ≠ 0) :
    (synthesizeSpeechV1 text env).2 = false ∧
    ∃ e, (retryWithBackoffV1
        (fun _ => (synthesizeSpeechV1 text env).1) maxRetries) =
        (.error e, maxRetries + 1, List.replicate maxRetries 500) ∧
      e.status = none := by
  have hne : (text.len == 0 || text.trimLen == 0) = false := by
    simp
    omega
  have hgt : text.len > 4096 := hlen
  have hsynth : synthesizeSpeechV1 text env =
      (.error ⟨none, "TTS failed: Text exceeds 4096 character limit"⟩, false) := by
    simp [synthesizeSpeechV1, hne, hgt]
  have hop : ∀ i : Nat, ∃ e, (fun _ : Nat => (synthesizeSpeechV1 text env).1) i
      = .error e ∧ isClientErrorV1 e = false := by
    intro _
    exact ⟨⟨none, "TTS failed: Text exceeds 4096 character limit"⟩,
      by rw [hsynth], by simp [isClientErrorV1]⟩
  obtain ⟨e, he, hr⟩ := retryFromV1_allRetryable
    (fun _ => (synthesizeSpeechV1 text env).1) maxRetries 0 hop
  refine ⟨by rw [hsynth], e, by simpa [retryWithBackoffV1] using hr, ?_⟩
  rw [hsynth] at he
  cases he
  rfl

/-- Witness for C8 at a concrete 4097-character text. -/
theorem C8_tts_ceiling_witness :
    (synthesizeSpeechV1 ⟨4097, 4097⟩ ⟨.ok []⟩).2 = false ∧
    ∃ e, (retryWithBackoffV1
        (fun _ => (synthesizeSpeechV1 ⟨4097, 4097⟩ ⟨.ok []⟩).1) 2) =
        (.error e, 3, List.replicate 2 500) ∧
      e.status = none :=
  C8_tts_ceiling ⟨4097, 4097⟩ ⟨.ok []⟩ 2 (by decide) (by decide)

/-! ## Audio Intake and Validator

v1: `validateAudio` in audio.ts (third document of src/unnamed/part_000);
v2: `validateAudio` in src/v2/src/lib/audio.ts.

The filesystem and the external ffprobe invocation are modelled by their
outcomes: `fileExists` for `fs.existsSync`, `statResult` for `fs.statSync`
(either the size or a thrown error message), and `probeResult` for the
`execPromise("ffprobe ...")` call composed with `parseFloat` — a thrown
error, or the parsed duration where `none` stands for NaN. The configured
limits `MAX_AUDIO_SIZE_MB` and `MAX_AUDIO_DURATION_SECONDS` (read by v1
with defaults 25 and 300; v2 hard-codes both) are environment fields. -/

structure AudioValidationResult where
  valid : Bool
  duration : Option Nat
  size : Option Nat
  error : Option String
deriving Repr, DecidableEq

structure AudioEnv where
  fileExists : Bool
  statResult : Except String Nat
  probeResult : Except Unit (Option Nat)
  maxSizeMB : Nat
  maxDurationS : Nat
deriving Repr

/-- The body of the outer `try` block of v1 validateAudio; an `.error` is a
raised exception reaching the outer catch. -/
def validateAudioV1Body (env : AudioEnv) : Except String AudioValidationResult :=
  if !env.fileExists then
    .ok ⟨false, none, none, some "Audio file not found"⟩
  else
    match env.statResult with
    | .error m => .error m
    | .ok size =>
      if size > env.maxSizeMB * 1024 * 1024 then
        .ok ⟨false, none, none, some "Audio file too large"⟩
      else
        match env.probeResult with
        | .error _ =>
          -- inner catch: ffprobe not available, duration check skipped
          .ok ⟨true, none, some size, none⟩
        | .ok dur =>
          match dur with
          | some d =>
            if d > env.maxDurationS then
              .ok ⟨false, none, none, some "Audio duration too long"⟩
            else
              .ok ⟨true, some d, some size, none⟩
          | none =>
            -- NaN duration: `!isNaN(duration) && ...` is false, still valid
            .ok ⟨true, none, some size, none⟩

/-- v1 validateAudio: outer catch maps any raised error to an invalid
result carrying the error message. -/
def validateAudioV1 (env : AudioEnv) : Except String AudioValidationResult :=
  match validateAudioV1Body env with
  | .ok r => .ok r
  | .error m => .ok ⟨false, none, none, some m⟩

/-- v2 validateAudio: no outer catch (a statSync failure propagates), probe
failure is an invalid result, NaN or overlong duration is rejected. -/
def validateAudioV2 (env : AudioEnv) : Except String AudioValidationResult :=
  if !env.fileExists then
    .ok ⟨false, none, none, some "Audio file not found"⟩
  else
    match env.statResult with
    | .error m => .error m
    | .ok size =>
      if size > 25 * 1024 * 1024 then
        .ok ⟨false, none, none, some "Audio file too large (max 25MB)"⟩
      else
        match env.probeResult with
        | .error _ =>
          .ok ⟨false, none, none, some "Invalid audio file or format not supported"⟩
        | .ok dur =>
          match dur with
          | none =>
            .ok ⟨false, none, none, some "Audio duration too long (max 5 minutes)"⟩
          | some d =>
            if d > 300 then
              .ok ⟨false, none, none, some "Audio duration too long (max 5 minutes)"⟩
            else
              .ok ⟨true, some d, some size, none⟩

/-- C7 counterexample: on an existing, size-acceptable file whose ffprobe
invocation fails, the v1 validateAudio returns valid = true (skipping the
duration check), not the invalid unsupported-format result the claim
requires. -/
theorem C7_probe_failure_cx :
    validateAudioV1 ⟨true, .ok 100, .error (), 25, 300⟩ =
      .ok ⟨true, none, some 100, none⟩ ∧
    (⟨true, none, some 100, none⟩ : AudioValidationResult).valid ≠ false := by
  exact ⟨rfl, by decide⟩

/-- C7 (amended): when the external ffprobe invocation fails on an existing
file of acceptable size, the v2 validateAudio returns valid = false with
the generic unsupported-format reason and raises nothing; the v1
validateAudio instead tolerates the probe failure and returns valid = true
with the duration check skipped. -/
theorem C7_probe_failure (env : AudioEnv) (n : Nat)
    (hprobe : env.probeResult = .error ())
    (hexists : env.fileExists = true)
    (hstat : env.statResult = .ok n)
    (hsize2 : n ≤ 25 * 1024 * 1024)
    (hsize1 : n ≤ env.maxSizeMB * 1024 * 1024) :
    validateAudioV2 env =
      .ok ⟨false, none, none, some "Invalid audio file or format not supported"⟩ ∧
    validateAudioV1 env = .ok ⟨true, none, some n, none⟩ := by
  constructor
  · simp [validateAudioV2, hexists, hstat, hprobe, Nat.not_lt.mpr hsize2]
  · simp [validateAudioV1, validateAudioV1Body, hexists, hstat, hprobe,
      Nat.not_lt.mpr hsize1]

/-- Witness for C7 at a concrete probe-failure environment. -/
theorem C7_probe_failure_witness :
    validateAudioV2 ⟨true, .ok 2048, .error (), 25, 300⟩ =
      .ok ⟨false, none, none, some "Invalid audio file or format not supported"⟩ ∧
    validateAudioV1 ⟨true, .ok 2048, .error (), 25, 300⟩ =
      .ok ⟨true, none, some 2048, none⟩ :=
  C7_probe_failure ⟨true, .ok 2048, .error (), 25, 300⟩ 2048
    rfl rfl rfl (by decide) (by decide)

/-- C10: v1 validateAudio is total — for every filesystem, stat, probe and
configuration outcome it returns a result record rather than raising, and
every invalid result carries a human-readable reason. -/
theorem C10_validateAudio_total (env : AudioEnv) :
    ∃ r, validateAudioV1 env = .ok r ∧ (r.valid = false → r.error ≠ none) := by
  rcases env with ⟨fe, st, pr, ms, md⟩
  cases fe
  · exact ⟨⟨false, none, none, some "Audio file not found"⟩,
      by simp [validateAudioV1, validateAudioV1Body], by simp⟩
  · cases st with
    | error m =>
      exact ⟨⟨false, none, none, some m⟩,
        by simp [validateAudioV1, validateAudioV1Body], by simp⟩
    | ok size =>
      by_cases hs : size > ms * 1024 * 1024
      · exact ⟨⟨false, none, none, some "Audio file too large"⟩,
          by simp [validateAudioV1, validateAudioV1Body, hs], by simp⟩
      · cases pr with
        | error u =>
          exact ⟨⟨true, none, some size, none⟩,
            by simp [validateAudioV1, validateAudioV1Body, hs], by simp⟩
        | ok dur =>
          cases dur with
          | none =>
            exact ⟨⟨true, none, some size, none⟩,
              by simp [validateAudioV1, validateAudioV1Body, hs], by simp⟩
          | some d =>
            by_cases hd : d > md
            · exact ⟨⟨false, none, none, some "Audio duration too long"⟩,
                by simp [validateAudioV1, validateAudioV1Body, hs, hd], by simp⟩
            · exact ⟨⟨true, some d, some size, none⟩,
                by simp [validateAudioV1, validateAudioV1Body, hs, hd], by simp⟩

/-- Witness for C10 at a concrete environment. -/
theorem C10_validateAudio_total_witness :
    ∃ r, validateAudioV1 ⟨true, .error "EACCES", .ok (some 10), 25, 300⟩ = .ok r ∧
      (r.valid = false → r.error ≠ none) :=
  C10_validateAudio_total ⟨true, .error "EACCES", .ok (some 10), 25, 300⟩

/-! ## Context Loader

v1 conversation.ts (second document of src/unnamed/part_000) and v2
conversation.ts (src/unnamed/part_011) both issue
`find({ sessionId }).sort({ createdAt: 1 }).limit(limit)` and project each
document to its role and content. The message collection is modelled as a
list of documents; the query is the filter on sessionId, an ascending sort
on createdAt, and a take of the first `limit` documents. -/

structure MsgDoc where
  sessionId : String
  role : String
  content : String
  createdAt : Nat
deriving Repr, DecidableEq

structure ChatMessage where
  role : String
  content : String
deriving Repr, DecidableEq

def insertByCreatedAt (m : MsgDoc) : List MsgDoc → List MsgDoc
  | [] => [m]
  | x :: xs =>
    if m.createdAt ≤ x.createdAt then m :: x :: xs
    else x :: insertByCreatedAt m xs

def sortByCreatedAt : List MsgDoc → List MsgDoc
  | [] => []
  | x :: xs => insertByCreatedAt x (sortByCreatedAt xs)

def getConversationHistory (store : List MsgDoc) (sessionId : String)
    (limit : Nat) : List ChatMessage :=
  (((sortByCreatedAt (store.filter (fun m => m.sessionId == sessionId))).take
      limit).map (fun m => ⟨m.role, m.content⟩))

/-- Written from the words of the spec, for comparison: the `limit`
most-recent messages of the session, ascending by creation time. -/
def specMostRecentHistory (store : List MsgDoc) (sessionId : String)
    (limit : Nat) : List ChatMessage :=
  let sorted := sortByCreatedAt (store.filter (fun m => m.sessionId == sessionId))
  ((sorted.drop (sorted.length - limit)).map (fun m => ⟨m.role, m.content⟩))

lemma mem_insertByCreatedAt {y m : MsgDoc} :
    ∀ {l : List MsgDoc}, y ∈ insertByCreatedAt m l ↔ y = m ∨ y ∈ l := by
  intro l
  induction l with
  | nil => simp [insertByCreatedAt]
  | cons x xs ih =>
    by_cases h : m.createdAt ≤ x.createdAt
    · simp [insertByCreatedAt, h]
    · simp [insertByCreatedAt, h, ih]
      tauto

lemma pairwise_insertByCreatedAt {m : MsgDoc} :
    ∀ {l : List MsgDoc},
      l.Pairwise (fun a b => a.createdAt ≤ b.createdAt) →
      (insertByCreatedAt m l).Pairwise (fun a b => a.createdAt ≤ b.createdAt) := by
  intro l
  induction l with
  | nil => simp [insertByCreatedAt]
  | cons x xs ih =>
    intro h
    rw [List.pairwise_cons] at h
    by_cases hle : m.createdAt ≤ x.createdAt
    · rw [insertByCreatedAt]
      simp only [hle, if_true]
      refine List.pairwise_cons.mpr ⟨?_, List.pairwise_cons.mpr h⟩
      intro y hy
      rcases List.mem_cons.mp hy with hy | hy
      · subst hy
        exact hle
      · exact le_trans hle (h.1 y hy)
    · rw [insertByCreatedAt]
      simp only [hle, if_false]
      refine List.pairwise_cons.mpr ⟨?_, ih h.2⟩
      intro y hy
      rcases mem_insertByCreatedAt.mp hy with hy | hy
      · subst hy
        omega
      · exact h.1 y hy

lemma pairwise_sortByCreatedAt (l : List MsgDoc) :
    (sortByCreatedAt l).Pairwise (fun a b => a.createdAt ≤ b.createdAt) := by
  induction l with
  | nil => simp [sortByCreatedAt]
  | cons x xs ih => exact pairwise_insertByCreatedAt ih

/-- C6 counterexample: on a session holding three messages with creation
times 1, 2, 3 and limit 2, the loader returns the two oldest messages, not
the two most-recent ones the claim requires. -/
theorem C6_history_cx :
    getConversationHistory
        [⟨"s", "user", "a", 1⟩, ⟨"s", "assistant", "b", 2⟩, ⟨"s", "user", "c", 3⟩]
        "s" 2 = [⟨"user", "a"⟩, ⟨"assistant", "b"⟩] ∧
    specMostRecentHistory
        [⟨"s", "user", "a", 1⟩, ⟨"s", "assistant", "b", 2⟩, ⟨"s", "user", "c", 3⟩]
        "s" 2 = [⟨"assistant", "b"⟩, ⟨"user", "c"⟩] ∧
    ([⟨"user", "a"⟩, ⟨"assistant", "b"⟩] : List ChatMessage) ≠
      [⟨"assistant", "b"⟩, ⟨"user", "c"⟩] := by
  refine ⟨rfl, rfl, by decide⟩

/-- C6 (amended): for every session and limit the Context Loader returns at
most `limit` entries, ordered ascending by creation time, and they are the
`limit` oldest (not most-recent) messages of the session; for an empty
session it returns the empty list without error. -/
theorem C6_history_shape (store : List MsgDoc) (sessionId : String)
    (limit : Nat) :
    (getConversationHistory store sessionId limit).length ≤ limit ∧
    ((sortByCreatedAt (store.filter (fun m => m.sessionId == sessionId))).take
        limit).Pairwise (fun a b => a.createdAt ≤ b.createdAt) ∧
    getConversationHistory store sessionId limit =
      ((sortByCreatedAt (store.filter (fun m => m.sessionId == sessionId))).take
        limit).map (fun m => ⟨m.role, m.content⟩) ∧
    (store.filter (fun m => m.sessionId == sessionId) = [] →
      getConversationHistory store sessionId limit = []) := by
  refine ⟨?_, ?_, rfl, ?_⟩
  · calc (getConversationHistory store sessionId limit).length
        = ((sortByCreatedAt (store.filter
            (fun m => m.sessionId == sessionId))).take limit).length := by
          simp [getConversationHistory]
      _ ≤ limit := List.length_take_le _ _
  · exact List.Pairwise.sublist (List.take_sublist _ _)
      (pairwise_sortByCreatedAt _)
  · intro h
    simp [getConversationHistory, h, sortByCreatedAt]

/-- Witness for C6 at a concrete store. -/
theorem C6_history_shape_witness :
    (getConversationHistory [⟨"s", "user", "hello", 1⟩] "s" 20).length ≤ 20 ∧
    getConversationHistory [⟨"s", "user", "hello", 1⟩] "other" 20 = [] := by
  have h1 := C6_history_shape [⟨"s", "user", "hello", 1⟩] "s" 20
  have h2 := C6_history_shape [⟨"s", "user", "hello", 1⟩] "other" 20
  exact ⟨h1.1, h2.2.2.2 (by decide)⟩

/-! ## Session Resolver

v1: src/src/modules/session.ts (mongoose); v2: src/unnamed/part_011
(mongodb driver). The session collection is a list of documents; clock and
generated id are parameters. Whether a supplied id can be cast to an
ObjectId is the parameter `validObjectId`: in v1, `findOne({_id: sessionId})`
on a malformed id raises a CastError, which getSession catches, logs and
rethrows; in v2, `new ObjectId(sessionId)` is wrapped in its own try/catch
and a malformed id yields null. Database writes themselves are assumed to
succeed (their failures are outside this claim). -/

structure SessionDoc where
  id : String
  userId : String
  createdAt : Nat
  lastActivityAt : Nat
deriving Repr, DecidableEq

def getSessionV1 (validObjectId : String → Bool) (store : List SessionDoc)
    (sessionId userId : String) : Except String (Option SessionDoc) :=
  if !validObjectId sessionId then .error "CastError"
  else .ok (store.find? (fun s => s.id == sessionId && s.userId == userId))

def getSessionV2 (validObjectId : String → Bool) (store : List SessionDoc)
    (sessionId userId : String) : Option SessionDoc :=
  if !validObjectId sessionId then none
  else store.find? (fun s => s.id == sessionId && s.userId == userId)

def createSession (store : List SessionDoc) (userId newId : String)
    (now : Nat) : List SessionDoc × String :=
  (store ++ [⟨newId, userId, now, now⟩], newId)

def bumpLastActivity (store : List SessionDoc) (sessionId : String)
    (now : Nat) : List SessionDoc :=
  store.map (fun t => if t.id == sessionId then
    { t with lastActivityAt := now } else t)

def getOrCreateSessionV1 (validObjectId : String → Bool)
    (store : List SessionDoc) (userId : String) (sessionId : Option String)
    (newId : String) (now : Nat) : Except String (List SessionDoc × String) :=
  match sessionId with
  | some sid =>
    match getSessionV1 validObjectId store sid userId with
    | .error m => .error m  -- the catch in getOrCreateSession logs and rethrows
    | .ok (some _) => .ok (bumpLastActivity store sid now, sid)
    | .ok none => .ok (createSession store userId newId now)
  | none => .ok (createSession store userId newId now)

def getOrCreateSessionV2 (validObjectId : String → Bool)
    (store : List SessionDoc) (userId : String) (sessionId : Option String)
    (newId : String) (now : Nat) : List SessionDoc × String :=
  match sessionId with
  | some sid =>
    match getSessionV2 validObjectId store sid userId with
    | some _ => (bumpLastActivity store sid now, sid)
    | none => createSession store userId newId now
  | none => createSession store userId newId now

/-- C9 counterexample: the v1 getOrCreateSession, given a malformed session
id (one that cannot be cast to an ObjectId), rethrows the CastError raised
by the lookup instead of creating and returning a new session. -/
theorem C9_session_resolver_cx :
    getOrCreateSessionV1 (fun s => s.length == 24) [] "user1"
      (some "stale-id") "newid" 5 = .error "CastError" := by
  rfl

/-- C9 (amended): the v2 getOrCreateSession never fails: for a supplied id
that does not identify an owned session — including a malformed id — it
creates and returns a new session owned by the caller, and for an id that
does match an owned session it bumps lastActivityAt and returns the same
id. The v1 getOrCreateSession behaves identically on ids that cast to an
ObjectId and when no id is supplied, but rethrows a CastError on a
malformed id instead of falling back to creation. -/
theorem C9_session_resolver (validObjectId : String → Bool)
    (store : List SessionDoc) (userId newId : String) (now : Nat) :
    (∀ sid, getSessionV2 validObjectId store sid userId = none →
      getOrCreateSessionV2 validObjectId store userId (some sid) newId now =
        (store ++ [⟨newId, userId, now, now⟩], newId)) ∧
    (∀ sid s, getSessionV2 validObjectId store sid userId = some s →
      getOrCreateSessionV2 validObjectId store userId (some sid) newId now =
        (bumpLastActivity store sid now, sid)) ∧
    getOrCreateSessionV2 validObjectId store userId none newId now =
      (store ++ [⟨newId, userId, now, now⟩], newId) ∧
    (∀ sid, validObjectId sid = false →
      getOrCreateSessionV1 validObjectId store userId (some sid) newId now =
        .error "CastError") ∧
    (∀ sid, validObjectId sid = true →
      getOrCreateSessionV1 validObjectId store userId (some sid) newId now =
        .ok (getOrCreateSessionV2 validObjectId store userId (some sid) newId now)) := by
  refine ⟨?_, ?_, rfl, ?_, ?_⟩
  · intro sid h
    simp [getOrCreateSessionV2, h, createSession]
  · intro sid s h
    simp [getOrCreateSessionV2, h]
  · intro sid h
    simp [getOrCreateSessionV1, getSessionV1, h]
  · intro sid h
    simp only [getOrCreateSessionV1, getOrCreateSessionV2, getSessionV1,
      getSessionV2, h, Bool.not_true, Bool.false_eq_true, if_false]
    cases store.find? (fun s => s.id == sid && s.userId == userId) <;> rfl

/-- Witness for C9: one owned session in the store; a matching id is bumped
and returned, a fresh well-formed id and a malformed id take the create
and the CastError paths respectively. -/
theorem C9_session_resolver_witness :
    getOrCreateSessionV2 (fun s => s.length == 4) [⟨"abcd", "u", 0, 0⟩] "u"
        (some "abcd") "new1" 7 = ([⟨"abcd", "u", 0, 7⟩], "abcd") ∧
    getOrCreateSessionV2 (fun s => s.length == 4) [⟨"abcd", "u", 0, 0⟩] "u"
        (some "zzzz") "new1" 7 =
      ([⟨"abcd", "u", 0, 0⟩, ⟨"new1", "u", 7, 7⟩], "new1") ∧
    getOrCreateSessionV1 (fun s => s.length == 4) [⟨"abcd", "u", 0, 0⟩] "u"
        (some "bad") "new1" 7 = .error "CastError" := by
  have h := C9_session_resolver (fun s => s.length == 4)
    [⟨"abcd", "u", 0, 0⟩] "u" "new1" 7
  refine ⟨?_, ?_, h.2.2.2.1 "bad" (by decide)⟩
  · have := h.2.1 "abcd" ⟨"abcd", "u", 0, 0⟩ (by decide)
    rw [this]
    rfl
  · have := h.1 "zzzz" (by decide)
    rw [this]
    rfl

/-! ## Pipeline Orchestrator: handleVoiceConversation (v1 voice.ts, src/unnamed/part_001)

The four awaited sub-calls (retried transcription, history load, retried
generation, retried synthesis) are modelled by their outcomes, and the two
`saveMessage` calls by their failure, if any; a successful save appends one
document to the message store, which is threaded through explicitly. The
outer catch of the source only logs and rethrows, so it does not change
the delivered outcome. -/

/-- JavaScript `!s || s.trim().length === 0`: an empty string is falsy and
also blank, so the test holds exactly when every character is whitespace. -/
def isBlank (s : String) : Bool := s.data.all (fun c => c.isWhitespace)

structure VCResult where
  audio : List Nat
  transcript : String
  response : String
deriving Repr, DecidableEq

structure VCEnv where
  transcribeResult : Except ErrV1 String
  historyResult : Except ErrV1 (List ChatMessage)
  generateResult : Except ErrV1 String
  synthesizeResult : Except ErrV1 (List Nat)
  saveUserError : Option ErrV1
  saveAssistantError : Option ErrV1

def handleVoiceConversation (env : VCEnv) (store : List ChatMessage) :
    Except ErrV1 VCResult × List ChatMessage :=
  match env.transcribeResult with
  | .error e => (.error e, store)
  | .ok transcript =>
    if isBlank transcript then
      (.error ⟨none, "No speech detected in audio"⟩, store)
    else
      match env.historyResult with
      | .error e => (.error e, store)
      | .ok _history =>
        match env.generateResult with
        | .error e => (.error e, store)
        | .ok responseText =>
          match env.synthesizeResult with
          | .error e => (.error e, store)
          | .ok audio =>
            match env.saveUserError with
            | some e => (.error e, store)
            | none =>
              let store1 := store ++ [⟨"user", transcript⟩]
              match env.saveAssistantError with
              | some e => (.error e, store1)
              | none =>
                (.ok ⟨audio, transcript, responseText⟩,
                  store1 ++ [⟨"assistant", responseText⟩])

/-- C2 counterexample: when every provider step succeeds, the user-message
save succeeds and the assistant-message save then fails, the invocation
fails but the user message of the turn remains persisted without its
paired assistant message. -/
theorem C2_turn_atomicity_cx :
    handleVoiceConversation
        ⟨.ok "hi", .ok [], .ok "hello", .ok [1, 2], none, some ⟨none, "db down"⟩⟩
        [] =
      (.error ⟨none, "db down"⟩, [⟨"user", "hi"⟩]) := by
  have hb : isBlank "hi" = false := by decide
  simp [handleVoiceConversation, hb]

/-- C2 (amended): if the Response Generator — or any step up to and
including the user-message save (transcription, the empty-speech check,
the history load, generation, synthesis, or the user-message save itself)
— fails, the invocation fails and no message of the turn is persisted;
but if the assistant-message save fails after the user-message save
succeeded, the user message remains persisted without its pair. -/
theorem C2_turn_atomicity (env : VCEnv) (store : List ChatMessage) :
    (((∃ e, env.transcribeResult = .error e) ∨
      (∃ t, env.transcribeResult = .ok t ∧ isBlank t = true) ∨
      (∃ e, env.historyResult = .error e) ∨
      (∃ e, env.generateResult = .error e) ∨
      (∃ e, env.synthesizeResult = .error e) ∨
      (∃ e, env.saveUserError = some e)) →
      (∃ e2, (handleVoiceConversation env store).1 = .error e2) ∧
      (handleVoiceConversation env store).2 = store) ∧
    (∀ t hist resp audio e,
      env.transcribeResult = .ok t → isBlank t = false →
      env.historyResult = .ok hist → env.generateResult = .ok resp →
      env.synthesizeResult = .ok audio → env.saveUserError = none →
      env.saveAssistantError = some e →
      handleVoiceConversation env store = (.error e, store ++ [⟨"user", t⟩])) := by
  constructor
  · intro hfail
    unfold handleVoiceConversation
    cases htr : env.transcribeResult with
    | error e1 => exact ⟨⟨e1, rfl⟩, rfl⟩
    | ok transcript =>
      by_cases hb : isBlank transcript
      · simp [hb]
      · simp only [hb, if_false]
        cases hh : env.historyResult with
        | error e1 => exact ⟨⟨e1, rfl⟩, rfl⟩
        | ok hist =>
          cases hg : env.generateResult with
          | error e1 => exact ⟨⟨e1, rfl⟩, rfl⟩
          | ok resp =>
            cases hs : env.synthesizeResult with
            | error e1 => exact ⟨⟨e1, rfl⟩, rfl⟩
            | ok audio =>
              cases hu : env.saveUserError with
              | some e1 => exact ⟨⟨e1, rfl⟩, rfl⟩
              | none =>
                exfalso
                rcases hfail with ⟨e, h⟩ | ⟨t2, h1, h2⟩ | ⟨e, h⟩ | ⟨e, h⟩ |
                  ⟨e, h⟩ | ⟨e, h⟩ <;> simp_all
  · intro t hist resp audio e htr hb hh hg hs hu ha
    simp [handleVoiceConversation, htr, hb, hh, hg, hs, hu, ha]

/-- Witness for C2: a synthesis failure persists nothing, and a failure of
the assistant-message save after a successful user-message save leaves
exactly the lone user message persisted. -/
theorem C2_turn_atomicity_witness :
    ((∃ e2, (handleVoiceConversation
        ⟨.ok "hey", .ok [], .ok "sure", .error ⟨some 500, "tts down"⟩, none, none⟩
        [⟨"user", "old"⟩]).1 = .error e2) ∧
      (handleVoiceConversation
        ⟨.ok "hey", .ok [], .ok "sure", .error ⟨some 500, "tts down"⟩, none, none⟩
        [⟨"user", "old"⟩]).2 = [⟨"user", "old"⟩]) ∧
    handleVoiceConversation
        ⟨.ok "ok?", .ok [], .ok "sure", .ok [7], none, some ⟨none, "disk full"⟩⟩
        [] = (.error ⟨none, "disk full"⟩, [⟨"user", "ok?"⟩]) := by
  constructor
  · exact (C2_turn_atomicity
      ⟨.ok "hey", .ok [], .ok "sure", .error ⟨some 500, "tts down"⟩, none, none⟩
      [⟨"user", "old"⟩]).1
      (Or.inr (Or.inr (Or.inr (Or.inr (Or.inl ⟨⟨some 500, "tts down"⟩, rfl⟩)))))
  · exact (C2_turn_atomicity
      ⟨.ok "ok?", .ok [], .ok "sure", .ok [7], none, some ⟨none, "disk full"⟩⟩
      []).2 "ok?" [] "sure" [7] ⟨none, "disk full"⟩ rfl (by decide)
      rfl rfl rfl rfl rfl

/-! ## Voice endpoint POST (v1 route, second document of src/src/modules/stt.ts)

The invocation owns at most two temp files: the uploaded artifact
(`uploads/<uuid>-<name>`) and, when ffmpeg transcoding succeeded, the
prepared artifact (`<same>.wav`); when transcoding fails,
prepareAudioForWhisper returns the original path, so `preparedPath`
aliases the upload. The on-disk state of the two files is threaded through
explicitly, and `cleanupFile` — unlink if the file exists, ignoring errors
— is the idempotent deletion of one of them. Sub-calls are modelled by
their outcomes as in the sections above. -/

structure TempFiles where
  orig : Bool
  prepared : Bool
deriving Repr, DecidableEq

inductive TempPath where
  | orig
  | prepared
deriving Repr, DecidableEq

def cleanupFile (fs : TempFiles) : TempPath → TempFiles
  | .orig => { fs with orig := false }
  | .prepared => { fs with prepared := false }

structure UploadedFile where
  name : String
  mimeType : String
  size : Nat
deriving Repr, DecidableEq

def ALLOWED_TYPES : List String :=
  ["audio/wav", "audio/mpeg", "audio/mp3", "audio/webm", "audio/ogg",
   "audio/flac", "audio/x-wav", "audio/wave"]

inductive PostResponse where
  | authFailed
  | validationError (msg : String)
  | apiError (e : ErrV1)
  | success (r : VCResult) (sessionId : String)
deriving Repr, DecidableEq

structure PostEnv where
  authOk : Bool
  audioFile : Option UploadedFile
  maxSizeMB : Nat
  validation : AudioValidationResult
  sessionResult : Except ErrV1 String
  transcoded : Bool
  voiceResult : Except ErrV1 VCResult

def POSTvoiceV1 (env : PostEnv) : PostResponse × TempFiles :=
  if !env.authOk then (.authFailed, ⟨false, false⟩)
  else
    match env.audioFile with
    | none => (.validationError "Audio file is required", ⟨false, false⟩)
    | some f =>
      if !(ALLOWED_TYPES.contains f.mimeType) then
        (.validationError "Invalid audio format. Supported: WAV, MP3, WebM, OGG, FLAC",
          ⟨false, false⟩)
      else if f.size > env.maxSizeMB * 1024 * 1024 then
        (.validationError "Audio file too large", ⟨false, false⟩)
      else
        -- writeFile(audioFilePath, ...): the uploaded temp file now exists
        let fs0 : TempFiles := ⟨true, false⟩
        if env.validation.valid = false then
          -- early `return NextResponse.json(...)` inside the try block:
          -- no cleanup runs on this path
          (.validationError (env.validation.error.getD ""), fs0)
        else
          match env.sessionResult with
          | .error e =>
            -- thrown before preparedPath was assigned; catch block:
            -- preparedPath is null, cleanupFile(audioFilePath) runs
            (.apiError e, cleanupFile fs0 .orig)
          | .ok sid =>
            -- prepareAudioForWhisper: on ffmpeg success the prepared file
            -- exists and the original was unlinked; on failure the original
            -- path is returned unchanged
            let fs1 : TempFiles := if env.transcoded then ⟨false, true⟩ else fs0
            let preparedPath : TempPath := if env.transcoded then .prepared else .orig
            match env.voiceResult with
            | .error e =>
              -- catch block: cleanupFile(preparedPath);
              -- if audioFilePath ≠ preparedPath then cleanupFile(audioFilePath)
              let fs2 := cleanupFile fs1 preparedPath
              let fs3 := if preparedPath ≠ TempPath.orig then cleanupFile fs2 .orig else fs2
              (.apiError e, fs3)
            | .ok r =>
              -- success path: cleanupFile(preparedPath);
              -- if preparedPath ≠ audioFilePath then cleanupFile(audioFilePath)
              let fs2 := cleanupFile fs1 preparedPath
              let fs3 := if preparedPath ≠ TempPath.orig then cleanupFile fs2 .orig else fs2
              (.success r sid, fs3)

/-- C1: on the validation-failure exit path of the v1 voice endpoint the
temp upload is not deleted: a request that passes the MIME and size checks,
is written to disk and is then rejected by validateAudio returns the 400
validation response with the uploaded temp file still existing on disk.
Every other exit path of the model deletes both temp files. -/
theorem C1_cleanup_missing_on_validation_failure :
    (POSTvoiceV1
      ⟨true, some ⟨"a.wav", "audio/wav", 1000⟩, 25,
        ⟨false, none, none, some "Audio duration too long"⟩,
        .ok "sid", false, .ok ⟨[1], "hi", "hello"⟩⟩).1 =
      .validationError "Audio duration too long" ∧
    (POSTvoiceV1
      ⟨true, some ⟨"a.wav", "audio/wav", 1000⟩, 25,
        ⟨false, none, none, some "Audio duration too long"⟩,
        .ok "sid", false, .ok ⟨[1], "hi", "hello"⟩⟩).2.orig = true := by
  constructor <;> rfl

end VoiceAgent
